import Mathlib

/-
Verification development for the multi-cluster `get` command
(pkg/karmadactl/get/get.go).  The Go source is shallowly embedded below:
pure row/column computations become Lean functions, the mutable package
globals become explicit state passing, fallible calls become `Except`,
and a Go `panic` in a goroutine is modelled as an `Except.error` of the
whole multiplexed computation (a panic crashes the entire process).
-/

namespace KarmadaGet

/-- A table cell.  In Go a cell is `interface{}`; the command only ever
injects string cells (cluster name, adoption marker, event type) next to
the opaque cells that came back from the server, so we model an opaque
original cell as `raw` and an injected string as `str`. -/
inductive Cell where
  | raw (v : Nat)
  | str (s : String)
deriving DecidableEq, Repr

/-- One `metav1.TableRow`: its cell list plus the embedded runtime object.
`objectLabels = some lbls` models `unObj.UnmarshalJSON(row.Object.Raw)`
succeeding with an object whose label map is `lbls`; `none` models the
unmarshal failing (the source logs and `continue`s in that case). -/
structure TableRow where
  cells : List Cell
  objectLabels : Option (List (String × String))
deriving DecidableEq, Repr

/-- Adoption marker for member-cluster resources managed by the control plane. -/
def managedByKarmada : String := "Y"

/-- Adoption marker for member-cluster resources not managed by the control
plane (the source spells the constant `notManagedByKaramda`). -/
def notManagedByKaramda : String := "N"

/-- Adoption marker for control-plane resources. -/
def notApplicable : String := "-"

/-- Modelled from the spec: the managed-by-control-plane label key.  The
constant lives in the `karmadautil` package, outside the embedded source;
only its identity as a fixed string matters to the claims. -/
def ManagedByKarmadaLabel : String := "karmada.io/managed"

/-- Modelled from the spec: the expected value of the managed-by label. -/
def ManagedByKarmadaLabelValue : String := "true"

/-- Label lookup in an object's label map (first match wins, as for a Go map
with unique keys). -/
def lookupLabel (lbls : List (String × String)) (k : String) : Option String :=
  (lbls.find? (fun p => p.fst == k)).map Prod.snd

/-- The test `v, exist := labels[ManagedByKarmadaLabel]; exist && v == ManagedByKarmadaLabelValue`. -/
def hasManagedLabel (lbls : List (String × String)) : Bool :=
  lookupLabel lbls ManagedByKarmadaLabel == some ManagedByKarmadaLabelValue

/-- Per-row cell transformation of list-mode reconstruction
(`reconstructionRow`, get.go:594-618).  The source first rebuilds the cells
as `cells[0] :: cluster :: cells[1:]`, then unmarshals the embedded object;
on unmarshal failure it `continue`s (no adoption cell).  Otherwise a
control-plane row gets `notApplicable`, a member row gets
`managedByKarmada` or `notManagedByKaramda` by the label test.  `none`
models the index panic the Go code would hit on an empty cell slice. -/
def reconstructCellsList (isControlPlane : Bool) (cluster : String)
    (row : TableRow) : Option (List Cell) :=
  match row.cells with
  | [] => none
  | c0 :: rest =>
    let base := c0 :: Cell.str cluster :: rest
    match row.objectLabels with
    | none => some base
    | some lbls =>
      if isControlPlane then
        some (base ++ [Cell.str notApplicable])
      else if hasManagedLabel lbls then
        some (base ++ [Cell.str managedByKarmada])
      else
        some (base ++ [Cell.str notManagedByKaramda])

/-- Per-row cell transformation of watch-mode reconstruction
(`reconstructObj`, get.go:637-658).  With `outputWatchEvents` the event
cell is prepended; the adoption cell is the literal `"Y"`/`"N"` decided by
the label test alone — the source has no control-plane branch here.  As in
list mode, unmarshal failure skips the adoption cell. -/
def reconstructCellsWatch (outputWatchEvents : Bool) (cluster : String)
    (event : String) (row : TableRow) : Option (List Cell) :=
  match row.cells with
  | [] => none
  | c0 :: rest =>
    let base :=
      if outputWatchEvents then
        Cell.str event :: c0 :: Cell.str cluster :: rest
      else
        c0 :: Cell.str cluster :: rest
    match row.objectLabels with
    | none => some base
    | some lbls =>
      if hasManagedLabel lbls then
        some (base ++ [Cell.str "Y"])
      else
        some (base ++ [Cell.str "N"])

/-- One `metav1.TableColumnDefinition`. -/
structure TableColumnDefinition where
  name : String
  type : String
  format : String
  priority : Nat
deriving DecidableEq, Repr

/-- Initial value of the mutable package global `podColumns` (get.go:76-79):
the injected CLUSTER and ADOPTION columns, both with priority 0.  Mutation
of the global is modelled by passing the current value explicitly. -/
def podColumns : List TableColumnDefinition :=
  [⟨"CLUSTER", "string", "", 0⟩, ⟨"ADOPTION", "string", "", 0⟩]

/-- The injected EVENT column (get.go:80). -/
def eventColumn : TableColumnDefinition :=
  ⟨"EVENT", "string", "", 0⟩

/-- Index of the column mutated by `setNoAdoption` (get.go:60). -/
def printColumnClusterNum : Nat := 1

/-- The statement `cols[i].Priority = 1`: set the priority of the i-th
column to 1, leaving everything else unchanged. -/
def bumpPriorityAt : Nat → List TableColumnDefinition → List TableColumnDefinition
  | _, [] => []
  | 0, c :: rest => { c with priority := 1 } :: rest
  | Nat.succ n, c :: rest => c :: bumpPriorityAt n rest

/-- `setNoAdoption` (get.go:975-980): when the mapping's pluralized
resource name is "pods", set `podColumns[printColumnClusterNum].Priority`
to 1.  The `Option` argument is the possibly-nil `*meta.RESTMapping`,
reduced to its `Resource.Resource` field. -/
def setNoAdoption (mapping : Option String)
    (cols : List TableColumnDefinition) : List TableColumnDefinition :=
  match mapping with
  | none => cols
  | some r => if r == "pods" then bumpPriorityAt printColumnClusterNum cols else cols

/-- `setColumnDefinition` (get.go:982-993): when the table has columns,
rebuild them as `[event?] ++ cols[0] ++ podColumns[0] ++ cols[1:] ++
podColumns[1:]`.  The current value of the `podColumns` global is passed
explicitly.  The source indexes `podColumns[0]`, which always exists
because the global always holds two entries; the empty fallback branch is
unreachable in any run (Go would panic there). -/
def setColumnDefinition (outputWatchEvents : Bool)
    (podCols tableCols : List TableColumnDefinition) : List TableColumnDefinition :=
  match tableCols, podCols with
  | [], _ => []
  | _ :: _, [] => tableCols
  | c0 :: rest, p0 :: ptail =>
    if outputWatchEvents then
      eventColumn :: c0 :: p0 :: (rest ++ ptail)
    else
      c0 :: p0 :: (rest ++ ptail)

/-- A column is rendered in the default (narrow) view exactly when its
priority is 0; a positive priority defers the column to wide output.  This
is the Kubernetes table-printer contract consumed by the source, matching
the source's own comment on `setNoAdoption` ("set pod no print adoption":
raising the priority hides the column). -/
def shownByDefault (c : TableColumnDefinition) : Bool := c.priority == 0

/-- A rendering session: the sequence of `setNoAdoption` calls made while
tables are rendered, threaded through the `podColumns` global state.  Each
element is the mapping (resource name) of one rendered table. -/
def renderSession (mappings : List (Option String))
    (cols : List TableColumnDefinition) : List TableColumnDefinition :=
  mappings.foldl (fun s m => setNoAdoption m s) cols

/-- The value of the `podColumns` global after a "pods" table has been
rendered: the ADOPTION column's priority has been raised to 1. -/
def podColumnsMutated : List TableColumnDefinition :=
  [⟨"CLUSTER", "string", "", 0⟩, ⟨"ADOPTION", "string", "", 1⟩]

deriving instance DecidableEq for Except

/-- The schema-relevant part of one `resource.Info`: its mapping's
GroupVersionKind (flattened to a string key), and whether the resource is
namespace-scoped. -/
structure ObjInfo where
  gvk : String
  namespaced : Bool
deriving DecidableEq, Repr

/-- The `Obj` struct (get.go:338-342): cluster name, control-plane flag
and the collected info. -/
structure Obj where
  cluster : String
  isControlPlane : Bool
  info : ObjInfo
deriving DecidableEq, Repr

/-- A `WatchObj` (get.go:345-348): the cluster name and the deferred query
result `r`, reduced to what `r.Infos()` will later yield.  Note the struct
has no control-plane flag — `getObjInfo` drops `isControlPlane` when it
builds one. -/
structure WatchObjM where
  cluster : String
  infosResult : Except String (List ObjInfo)
deriving DecidableEq, Repr

/-- One error appended to the shared `allErrs` slice, kept structured so
that target tagging is observable.  `plain` is a bare `append(allErrs,
err)` (the `RESTClient()` failure path); `inaccessible` is the formatted
probe failure; `taggedMsg` is the `fmt.Errorf("cluster(%s): %s", ...)`
wrapping used by the builder/infos/printGeneric paths. -/
inductive RunError where
  | plain (msg : String)
  | inaccessible (cluster : String)
  | taggedMsg (cluster : String) (msg : String)
deriving DecidableEq, Repr

/-- The rendered message of an accumulated error, mirroring the Go format
strings. -/
def errMsg : RunError → String
  | RunError.plain m => m
  | RunError.inaccessible c =>
      "cluster(" ++ c ++ ") is inaccessible, please check authorization or network"
  | RunError.taggedMsg c m => "cluster(" ++ c ++ "): " ++ m

/-- Whether an accumulated error carries its originating target's name. -/
def isTagged : RunError → Bool
  | RunError.plain _ => false
  | RunError.inaccessible _ => true
  | RunError.taggedMsg _ _ => true

/-- The outcome of each external call `getObjInfo` makes for one target,
in source order: `f.RESTClient()`, the member pre-flight proxy probe,
`r.Err()` on the built query, and `r.Infos()`. -/
structure ClusterQueryInput where
  restClientResult : Except String Unit
  probeResult : Except String Unit
  builderResult : Except String Unit
  infosResult : Except String (List ObjInfo)
deriving DecidableEq, Repr

/-- The shared mutable containers of `Run` (get.go:355-357): collected
objects, collected watch handles, and the accumulated error slice. -/
structure FanOutState where
  objs : List Obj
  watchObjs : List WatchObjM
  errs : List RunError
deriving DecidableEq, Repr

/-- The empty initial state of `Run`. -/
def fanOutInit : FanOutState := ⟨[], [], []⟩

/-- `getObjInfo` (get.go:503-579) for the human-readable printer path,
threading the shared containers as explicit state.  In source order:
a `RESTClient()` error is appended bare (untagged); for a non-control-plane
target a probe failure appends the formatted inaccessible error; a builder
error and an `Infos()` error are appended tagged with the cluster; in
watch mode the result `r` is stored as a `WatchObj` (dropping the
control-plane flag); otherwise the infos are appended to `objs`. -/
def getObjInfo (watchMode : Bool) (cluster : String) (isControlPlane : Bool)
    (inp : ClusterQueryInput) (st : FanOutState) : FanOutState :=
  match inp.restClientResult with
  | Except.error e => { st with errs := st.errs ++ [RunError.plain e] }
  | Except.ok _ =>
    match isControlPlane, inp.probeResult with
    | false, Except.error _ =>
        { st with errs := st.errs ++ [RunError.inaccessible cluster] }
    | _, _ =>
      match inp.builderResult with
      | Except.error e =>
          { st with errs := st.errs ++ [RunError.taggedMsg cluster e] }
      | Except.ok _ =>
        if watchMode then
          { st with watchObjs := st.watchObjs ++ [⟨cluster, inp.infosResult⟩] }
        else
          match inp.infosResult with
          | Except.error e =>
              { st with errs := st.errs ++ [RunError.taggedMsg cluster e] }
          | Except.ok infos =>
              { st with objs := st.objs ++ infos.map (fun i => ⟨cluster, isControlPlane, i⟩) }

/-- The fan-out phase of `Run` (get.go:351-395), serialized: the
control-plane query runs first when the scope contains Karmada, then each
member cluster's factory is built; a factory error makes `Run` return that
error immediately (`return err`, get.go:366-369), abandoning all collected
state, while a factory success dispatches `getObjInfo` for that member.
The goroutine interleaving only permutes append order, which no settled
claim depends on. -/
def RunFanOut (watchMode : Bool) (containKarmadaScope : Bool)
    (controlPlaneInput : ClusterQueryInput)
    (members : List (String × Except String ClusterQueryInput)) :
    Except String FanOutState :=
  let st0 :=
    if containKarmadaScope then
      getObjInfo watchMode "Karmada" true controlPlaneInput fanOutInit
    else fanOutInit
  members.foldlM
    (fun st m =>
      match m.snd with
      | Except.error e => Except.error e
      | Except.ok inp => Except.ok (getObjInfo watchMode m.fst false inp st))
    st0

/-- The diagnostic messages of `printIfNotFindResource` (get.go:479-492). -/
inductive Diagnostic where
  | noMemberClusters
  | noResourcesInNamespace (ns : String)
  | noResources
deriving DecidableEq, Repr

/-- `printIfNotFindResource` (get.go:479-492): emits at most one
informational line on the error stream; it never touches the error slice
(it only reads its length), which the `Option` return type makes
structural. -/
def printIfNotFindResource (written : Nat) (ignoreNotFound : Bool)
    (errs : List RunError) (containKarmadaScope : Bool)
    (targetMemberClusters : List String) (allResourcesNamespaced : Bool)
    (ns : String) : Option Diagnostic :=
  if written != 0 || ignoreNotFound || errs.length != 0 then
    none
  else if !containKarmadaScope && targetMemberClusters.length == 0 then
    some Diagnostic.noMemberClusters
  else if allResourcesNamespaced then
    some (Diagnostic.noResourcesInNamespace ns)
  else
    some Diagnostic.noResources

/-- The `allResourcesNamespaced` accumulator of `printObjs`
(get.go:413,419): it starts as the negated all-namespaces flag and is
conjoined with each collected object's namespacedness. -/
def allResourcesNamespacedOf (allNamespaces : Bool) (objs : List Obj) : Bool :=
  objs.foldl (fun acc o => acc && o.info.namespaced) (!allNamespaces)

/-- `utilerrors.NewAggregate` as observed by `Run`'s caller: nil exactly
when the accumulated slice is empty. -/
def runAggregate (errs : List RunError) : Option (List RunError) :=
  if errs.isEmpty then none else some errs

/-- The deduplicating insert used for printer-construction errors in
`printObjs` (get.go:437-440): a message already seen is dropped, a new
message is appended at the end. -/
def dedupInsert (acc : List String) (e : String) : List String :=
  if acc.contains e then acc else acc ++ [e]

/-- The accumulated printer-construction error messages after a sequence
of failures, in insertion order. -/
def printerErrsFold (msgs : List String) : List String :=
  msgs.foldl dedupInsert []

/-- `multipleGVKsRequested` (get.go:962-973): fewer than two objects never
count as multiple kinds; otherwise any object whose GroupVersionKind
differs from the first object's does. -/
def multipleGVKsRequested (objs : List Obj) : Bool :=
  match objs with
  | [] => false
  | o :: rest => rest.any (fun x => x.info.gvk != o.info.gvk)

/-- How the setup phase of `watch` (get.go:670-696) ends. -/
inductive WatchSetupOutcome where
  | errEmptyWatch
  | errInfos (msg : String)
  | errMultipleKinds
  | crashEmptyInfos
  | proceed (gvk : String)
deriving DecidableEq, Repr

/-- The setup phase of `watch` (get.go:670-696): reject an empty watch
list; take the FIRST watch handle's infos (later handles' infos are never
examined here); fail their retrieval error through; build `objs` from
those infos with the first handle's cluster name (the `IsControlPlane`
field is left at its zero value); reject when they span multiple kinds;
then index `infos[0]` — a crash when the first handle yielded no infos —
and proceed to subscriptions on that single mapping. -/
def watchSetup (watchObjs : List WatchObjM) : WatchSetupOutcome :=
  match watchObjs with
  | [] => WatchSetupOutcome.errEmptyWatch
  | w0 :: _ =>
    match w0.infosResult with
    | Except.error e => WatchSetupOutcome.errInfos e
    | Except.ok infos =>
      let objs := infos.map (fun i => (⟨w0.cluster, false, i⟩ : Obj))
      if multipleGVKsRequested objs then
        WatchSetupOutcome.errMultipleKinds
      else
        match infos with
        | [] => WatchSetupOutcome.crashEmptyInfos
        | i0 :: _ => WatchSetupOutcome.proceed i0.gvk

/-- The per-stream result of `watchObj.r.Object()` in a watch goroutine:
whether the materialized state is a list, and (for lists) the outcome of
reading its resource version. -/
structure WatchInitial where
  isList : Bool
  resourceVersionResult : Except String String
deriving DecidableEq, Repr

/-- One target's inputs to `watchMultiClusterObj`: its cluster name, the
outcome of materializing its current state, and the outcome of
establishing the watch — on success, the stream of per-event receive
outcomes (each event either processes cleanly or fails). -/
structure WatchTargetInput where
  cluster : String
  objectResult : Except String WatchInitial
  watchEstablish : Except String (List (Except String Unit))
deriving DecidableEq, Repr

/-- How one target's watch goroutine (get.go:751-808) ends.  `panicked`
is a Go `panic(err)` — it crashes the whole process.  `finished` is the
`watchtools.UntilWithoutRetry` loop ending; its error, if any, is
discarded by the `_ = intr.Run(...)` assignment, recorded nowhere. -/
inductive LoopOutcome where
  | panicked (msg : String)
  | finished (discardedError : Option String)
deriving DecidableEq, Repr

/-- The event loop body under `UntilWithoutRetry`: events are consumed in
order; the first failing receive or row-processing error ends the loop
with that error (which the caller then discards). -/
def runUntil : List (Except String Unit) → Option String
  | [] => none
  | Except.error e :: _ => some e
  | Except.ok _ :: rest => runUntil rest

/-- One target's watch goroutine (get.go:751-808): `r.Object()` failure,
resource-version read failure (list case) and `r.Watch(rv)` failure each
`panic(err)`; otherwise the event loop runs to completion and any loop
error is discarded. -/
def watchTargetLoop (inp : WatchTargetInput) : LoopOutcome :=
  match inp.objectResult with
  | Except.error e => LoopOutcome.panicked e
  | Except.ok ini =>
    let rvResult : Except String String :=
      if ini.isList then ini.resourceVersionResult else Except.ok "0"
    match rvResult with
    | Except.error e => LoopOutcome.panicked e
    | Except.ok _ =>
      match inp.watchEstablish with
      | Except.error e => LoopOutcome.panicked e
      | Except.ok events => LoopOutcome.finished (runUntil events)

/-- `watchMultiClusterObj` (get.go:744-811): one goroutine per target.  A
panic in any goroutine crashes the whole process (`Except.error`);
otherwise every loop runs to its own end and the call returns, per target,
the discarded loop error.  The Go function has no access to any shared
error collection: nothing is recorded anywhere on failure. -/
def watchMultiClusterObj (inputs : List WatchTargetInput) :
    Except String (List (String × Option String)) :=
  inputs.foldr
    (fun inp acc =>
      match watchTargetLoop inp with
      | LoopOutcome.panicked e => Except.error e
      | LoopOutcome.finished d => acc.map (fun rest => (inp.cluster, d) :: rest))
    (Except.ok [])

/-- Concrete watch handles for the C5 counterexample: the first target's
records hold one resource-type identity, the second target's a different
one. -/
def c5WatchObjs : List WatchObjM :=
  [⟨"member1", Except.ok [⟨"apps/v1/Deployment", true⟩]⟩,
   ⟨"member2", Except.ok [⟨"batch/v1/Job", true⟩]⟩]

/-- All resource-type identities across all collected watch handles. -/
def allGVKs (watchObjs : List WatchObjM) : List String :=
  watchObjs.foldr
    (fun w acc =>
      (match w.infosResult with
       | Except.ok infos => infos.map ObjInfo.gvk
       | Except.error _ => []) ++ acc) []

/-- Query outcome of a healthy control-plane target used by the C1
counterexample: every external call succeeds. -/
def c1ControlPlaneInput : ClusterQueryInput :=
  ⟨Except.ok (), Except.ok (), Except.ok (), Except.ok [⟨"v1/Pod", true⟩]⟩

/-- Query outcome of a healthy member target: every external call
succeeds and one record comes back. -/
def healthyMemberInput : ClusterQueryInput :=
  ⟨Except.ok (), Except.ok (), Except.ok (), Except.ok [⟨"apps/v1/Deployment", true⟩]⟩

/-! Helper lemmas -/

theorem setNoAdoption_mutated_fixed (m : Option String) :
    setNoAdoption m podColumnsMutated = podColumnsMutated := by
  cases m with
  | none => rfl
  | some r =>
    by_cases h : r = "pods"
    · subst h; rfl
    · have hb : (r == "pods") = false := beq_eq_false_iff_ne.mpr h
      simp [setNoAdoption, hb]

theorem setNoAdoption_initial_cases (m : Option String) :
    setNoAdoption m podColumns = podColumns ∨
      setNoAdoption m podColumns = podColumnsMutated := by
  cases m with
  | none => exact Or.inl rfl
  | some r =>
    by_cases h : r = "pods"
    · subst h; exact Or.inr rfl
    · have hb : (r == "pods") = false := beq_eq_false_iff_ne.mpr h
      exact Or.inl (by simp [setNoAdoption, hb])

theorem renderSession_cons (m : Option String) (ms : List (Option String))
    (c : List TableColumnDefinition) :
    renderSession (m :: ms) c = renderSession ms (setNoAdoption m c) := rfl

theorem renderSession_append (ms1 ms2 : List (Option String))
    (c : List TableColumnDefinition) :
    renderSession (ms1 ++ ms2) c = renderSession ms2 (renderSession ms1 c) := by
  simp [renderSession, List.foldl_append]

theorem renderSession_mutated_fixed (ms : List (Option String)) :
    renderSession ms podColumnsMutated = podColumnsMutated := by
  induction ms with
  | nil => rfl
  | cons m rest ih =>
    rw [renderSession_cons, setNoAdoption_mutated_fixed]
    exact ih

theorem renderSession_two_states (ms : List (Option String)) :
    renderSession ms podColumns = podColumns ∨
      renderSession ms podColumns = podColumnsMutated := by
  induction ms with
  | nil => exact Or.inl rfl
  | cons m rest ih =>
    rw [renderSession_cons]
    rcases setNoAdoption_initial_cases m with h | h
    · rw [h]; exact ih
    · rw [h]; exact Or.inr (renderSession_mutated_fixed rest)

theorem getLast?_cons_append {α : Type} (x : α) (l : List α) (a : α) :
    (x :: (l ++ [a])).getLast? = some a := by
  rw [show x :: (l ++ [a]) = (x :: l) ++ [a] from rfl, List.getLast?_concat]

/-! Claim theorems -/

/-- C10: calling `watch` with an empty list of collected watch handles
returns an error ("not to find obj that is watched") rather than
succeeding silently with no output. -/
theorem C10_theorem : watchSetup [] = WatchSetupOutcome.errEmptyWatch := rfl

/-- C3 counterexample: the claim says the "pods" adoption column is
elevated to be shown by default while other types keep a hidden priority.
On the code it is the reverse: `setNoAdoption` raises the pods adoption
column's priority to 1, which hides it in the default view, while every
other resource type keeps priority 0, which is shown by default. -/
theorem C3_counterexample :
    ((setNoAdoption (some "pods") podColumns).get? 1).map shownByDefault = some false
    ∧ ((setNoAdoption (some "services") podColumns).get? 1).map shownByDefault = some true := by
  constructor <;> decide

/-- C3 amended: for the resource type "pods" the adoption column's
priority is raised to 1, hiding it in the default (narrow) view; every
other resource type keeps the initial priority 0, under which the column
is shown by default. -/
theorem C3_amended (r : String) :
    (setNoAdoption (some r) podColumns).get? 1
      = some ⟨"ADOPTION", "string", "", if r == "pods" then 1 else 0⟩
    ∧ ((setNoAdoption (some r) podColumns).get? 1).map shownByDefault
      = some (r != "pods") := by
  by_cases h : r = "pods"
  · subst h; exact ⟨rfl, rfl⟩
  · have hb : (r == "pods") = false := beq_eq_false_iff_ne.mpr h
    constructor
    · simp [setNoAdoption, hb, podColumns]
    · simp [setNoAdoption, hb, podColumns, shownByDefault, bne]

/-- C4 failing input, evaluated: with two watch targets, the first
target's failed watch establishment makes its goroutine `panic(err)`,
crashing the whole process; nothing is recorded in any error collection
and the healthy sibling's loop, which alone would finish cleanly, is
killed with the process.  Additionally, a per-event receive error does
terminate only its own loop, but the error is discarded rather than
recorded. -/
theorem C4_theorem :
    watchMultiClusterObj
        [⟨"member1", Except.ok ⟨true, Except.ok "5"⟩, Except.error "watch establish failed"⟩,
         ⟨"member2", Except.ok ⟨true, Except.ok "7"⟩, Except.ok [Except.ok ()]⟩]
      = Except.error "watch establish failed"
    ∧ watchTargetLoop ⟨"member2", Except.ok ⟨true, Except.ok "7"⟩, Except.ok [Except.ok ()]⟩
      = LoopOutcome.finished none
    ∧ watchTargetLoop ⟨"member3", Except.ok ⟨true, Except.ok "9"⟩,
        Except.ok [Except.error "receive failed"]⟩
      = LoopOutcome.finished (some "receive failed") := by
  refine ⟨rfl, rfl, rfl⟩

/-- C5 counterexample: the collected records span two distinct
resource-type identities across the two targets, yet watch setup proceeds
to subscriptions instead of failing with the multiple-kinds error —
`watch` only inspects the FIRST handle's infos. -/
theorem C5_counterexample :
    allGVKs c5WatchObjs = ["apps/v1/Deployment", "batch/v1/Job"]
    ∧ "apps/v1/Deployment" ≠ "batch/v1/Job"
    ∧ watchSetup c5WatchObjs = WatchSetupOutcome.proceed "apps/v1/Deployment" := by
  refine ⟨rfl, by decide, rfl⟩

/-- C5 amended: watch setup fails with the multiple-kinds error exactly
when the first collected handle's own records span more than one
resource-type identity; identities contributed only by later handles are
never examined, and the check still happens before any subscription
starts. -/
theorem C5_amended (cluster : String) (infos : List ObjInfo) (rest : List WatchObjM) :
    (watchSetup ((⟨cluster, Except.ok infos⟩ : WatchObjM) :: rest)
        = WatchSetupOutcome.errMultipleKinds)
      ↔ multipleGVKsRequested (infos.map (fun i => (⟨cluster, false, i⟩ : Obj))) = true := by
  cases h : multipleGVKsRequested (infos.map (fun i => (⟨cluster, false, i⟩ : Obj))) with
  | true => simp [watchSetup, h]
  | false =>
    cases infos with
    | nil => simp [watchSetup, h]; rfl
    | cons i0 itail => simp [watchSetup, h]; simpa using h

/-- C9: rendering any "pods" table raises the ADOPTION entry of the
package-global `podColumns` to priority 1, and no later `setNoAdoption`
call — for any resource type — ever resets it, so every table rendered
afterwards in the same process embeds the changed adoption-column
priority through `setColumnDefinition`; rendering is not free of side
effects on state outside the table being rendered. -/
theorem C9_theorem (pre post : List (Option String)) (c0 : TableColumnDefinition) :
    renderSession (pre ++ some "pods" :: post) podColumns = podColumnsMutated
    ∧ podColumnsMutated ≠ podColumns
    ∧ setColumnDefinition false podColumnsMutated [c0]
      = [c0, ⟨"CLUSTER", "string", "", 0⟩, ⟨"ADOPTION", "string", "", 1⟩] := by
  refine ⟨?_, by decide, rfl⟩
  rw [renderSession_append, renderSession_cons]
  rcases renderSession_two_states pre with h | h <;> rw [h]
  · rw [show setNoAdoption (some "pods") podColumns = podColumnsMutated from rfl]
    exact renderSession_mutated_fixed post
  · rw [setNoAdoption_mutated_fixed]
    exact renderSession_mutated_fixed post

/-- C1 counterexample: in watch mode the control-plane target (collected
with the control-plane flag set) is stored as a `WatchObj` that drops the
flag, and `reconstructObj` has no control-plane branch, so a
control-plane-origin row whose document lacks the managed-by label gets
adoption cell "N" instead of the claimed "-". -/
theorem C1_counterexample :
    ((getObjInfo true "Karmada" true c1ControlPlaneInput fanOutInit).watchObjs.map
        (fun w => reconstructCellsWatch false w.cluster "ADDED" ⟨[Cell.raw 0], some []⟩))
      = [some [Cell.raw 0, Cell.str "Karmada", Cell.str "N"]]
    ∧ Cell.str "N" ≠ Cell.str notApplicable := by
  refine ⟨rfl, by decide⟩

/-- C1 amended: for every reconstructed row whose embedded document
deserializes, list-mode reconstruction (`reconstructionRow`) computes the
adoption cell as "-" for a control-plane row, "Y" for a member row whose
document carries the managed-by label with its expected value, and "N"
for any other member row; watch-mode reconstruction (`reconstructObj`)
computes it as "Y" exactly when the document carries the label with its
expected value and "N" otherwise, with no control-plane case. -/
theorem C1_amended (isCP oev : Bool) (cluster event : String) (c0 : Cell)
    (rest : List Cell) (lbls : List (String × String)) :
    (reconstructCellsList isCP cluster ⟨c0 :: rest, some lbls⟩).map (fun cs => cs.getLast?)
      = some (some (Cell.str (if isCP then notApplicable
          else if hasManagedLabel lbls then managedByKarmada else notManagedByKaramda)))
    ∧ (reconstructCellsWatch oev cluster event ⟨c0 :: rest, some lbls⟩).map
        (fun cs => cs.getLast?)
      = some (some (Cell.str (if hasManagedLabel lbls then "Y" else "N"))) := by
  constructor
  · cases isCP with
    | true => simp [reconstructCellsList, getLast?_cons_append]
    | false =>
      cases h : hasManagedLabel lbls <;>
        simp [reconstructCellsList, h, getLast?_cons_append]
  · cases oev <;> cases h : hasManagedLabel lbls <;>
      simp [reconstructCellsWatch, h, getLast?_cons_append]

/-- C2 counterexample: a member-origin list-mode row with two original
cells whose embedded object fails to deserialize is reconstructed with 3
cells — len(originalCells)+1, not the claimed len(originalCells)+2 — the
adoption cell is skipped. -/
theorem C2_counterexample :
    (reconstructCellsList false "member1" ⟨[Cell.raw 0, Cell.raw 1], none⟩).map List.length
      = some 3
    ∧ (3 : Nat) ≠ 2 + 2 := by
  refine ⟨rfl, by decide⟩

/-- C2 amended: every reconstructed row whose embedded document
deserializes has exactly len(originalCells)+2 cells — name first, the
owning target's cluster cell at position 1, the remaining original cells,
the adoption cell last — or len(originalCells)+3 with the event cell
prepended when watch-event annotation is enabled; a row whose embedded
document fails to deserialize gets no adoption cell: it keeps name,
cluster and remaining original cells (len(originalCells)+1), with the
event cell additionally kept in front when watch-event annotation is
enabled (len(originalCells)+2, event cell first). -/
theorem C2_amended (isCP : Bool) (cluster event : String) (c0 : Cell)
    (rest : List Cell) (lbls : List (String × String)) :
    (∃ a, reconstructCellsList isCP cluster ⟨c0 :: rest, some lbls⟩
        = some (c0 :: Cell.str cluster :: (rest ++ [Cell.str a])))
    ∧ (reconstructCellsList isCP cluster ⟨c0 :: rest, some lbls⟩).map List.length
        = some ((c0 :: rest).length + 2)
    ∧ (∃ a, reconstructCellsWatch false cluster event ⟨c0 :: rest, some lbls⟩
        = some (c0 :: Cell.str cluster :: (rest ++ [Cell.str a])))
    ∧ (∃ a, reconstructCellsWatch true cluster event ⟨c0 :: rest, some lbls⟩
        = some (Cell.str event :: c0 :: Cell.str cluster :: (rest ++ [Cell.str a])))
    ∧ (reconstructCellsWatch true cluster event ⟨c0 :: rest, some lbls⟩).map List.length
        = some ((c0 :: rest).length + 3)
    ∧ reconstructCellsList isCP cluster ⟨c0 :: rest, none⟩
        = some (c0 :: Cell.str cluster :: rest)
    ∧ reconstructCellsWatch false cluster event ⟨c0 :: rest, none⟩
        = some (c0 :: Cell.str cluster :: rest)
    ∧ reconstructCellsWatch true cluster event ⟨c0 :: rest, none⟩
        = some (Cell.str event :: c0 :: Cell.str cluster :: rest) := by
  refine ⟨?_, ?_, ?_, ?_, ?_, rfl, rfl, rfl⟩
  · cases isCP with
    | true => exact ⟨notApplicable, by simp [reconstructCellsList]⟩
    | false =>
      cases h : hasManagedLabel lbls
      · exact ⟨notManagedByKaramda, by simp [reconstructCellsList, h]⟩
      · exact ⟨managedByKarmada, by simp [reconstructCellsList, h]⟩
  · cases isCP <;> cases h : hasManagedLabel lbls <;>
      simp [reconstructCellsList, h, List.length_append]
  · cases h : hasManagedLabel lbls
    · exact ⟨"N", by simp [reconstructCellsWatch, h]⟩
    · exact ⟨"Y", by simp [reconstructCellsWatch, h]⟩
  · cases h : hasManagedLabel lbls
    · exact ⟨"N", by simp [reconstructCellsWatch, h]⟩
    · exact ⟨"Y", by simp [reconstructCellsWatch, h]⟩
  · cases h : hasManagedLabel lbls <;>
      simp [reconstructCellsWatch, h, List.length_append]

theorem fanOutNeverAborts (w : Bool) (members : List (String × ClusterQueryInput)) :
    ∀ st : FanOutState, ∃ st2 : FanOutState,
      (members.map (fun m => (m.fst, (Except.ok m.snd : Except String ClusterQueryInput)))).foldlM
        (fun st m =>
          match m.snd with
          | Except.error e => Except.error e
          | Except.ok inp => Except.ok (getObjInfo w m.fst false inp st)) st
      = Except.ok st2 := by
  induction members with
  | nil => intro st; exact ⟨st, rfl⟩
  | cons m rest ih =>
    intro st
    obtain ⟨st2, h⟩ := ih (getObjInfo w m.fst false m.snd st)
    exact ⟨st2, by simpa [List.foldlM] using h⟩

/-- C6 counterexample: a healthy member alone yields its records, but as
soon as a sibling member's factory construction fails, `Run` returns that
error immediately — the whole run aborts and the healthy target's results
are lost, against the claim that a per-target failure never aborts the
tasks of other targets. -/
theorem C6_counterexample :
    RunFanOut false false healthyMemberInput
        [("member2", Except.ok healthyMemberInput)]
      = Except.ok ⟨[⟨"member2", false, ⟨"apps/v1/Deployment", true⟩⟩], [], []⟩
    ∧ RunFanOut false false healthyMemberInput
        [("member1", Except.error "failed to build member cluster factory"),
         ("member2", Except.ok healthyMemberInput)]
      = Except.error "failed to build member cluster factory" := by
  refine ⟨rfl, rfl⟩

/-- C6 amended: inside the per-target query (`getObjInfo`) a pre-flight
probe failure, a query build failure and an info-extraction failure are
each appended to the error set tagged with the target's name and never
abort other targets — when every member's factory construction succeeds
the fan-out always completes; but a REST-client construction failure is
appended untagged, and a member factory construction failure in `Run`
aborts the entire run before the sibling tasks are dispatched. -/
theorem C6_amended (w cks : Bool) (cp : ClusterQueryInput)
    (members : List (String × ClusterQueryInput)) (name e : String)
    (pr br : Except String Unit) (ir : Except String (List ObjInfo))
    (st : FanOutState) :
    (∃ st2, RunFanOut w cks cp (members.map (fun m => (m.fst, Except.ok m.snd)))
        = Except.ok st2)
    ∧ getObjInfo w name false ⟨Except.error e, pr, br, ir⟩ st
      = { st with errs := st.errs ++ [RunError.plain e] }
    ∧ getObjInfo w name false ⟨Except.ok (), Except.error e, br, ir⟩ st
      = { st with errs := st.errs ++ [RunError.inaccessible name] }
    ∧ getObjInfo w name false ⟨Except.ok (), Except.ok (), Except.error e, ir⟩ st
      = { st with errs := st.errs ++ [RunError.taggedMsg name e] }
    ∧ getObjInfo false name false ⟨Except.ok (), Except.ok (), Except.ok (), Except.error e⟩ st
      = { st with errs := st.errs ++ [RunError.taggedMsg name e] }
    ∧ isTagged (RunError.inaccessible name) = true
    ∧ isTagged (RunError.taggedMsg name e) = true
    ∧ isTagged (RunError.plain e) = false := by
  refine ⟨?_, rfl, rfl, ?_, rfl, rfl, rfl, rfl⟩
  · obtain ⟨st2, h⟩ := fanOutNeverAborts w members
      (if cks then getObjInfo w "Karmada" true cp fanOutInit else fanOutInit)
    exact ⟨st2, h⟩
  · cases w <;> rfl

/-- C7 counterexample: two member clusters whose REST-client construction
fails with the same message contribute two identical, untagged entries to
the accumulated error set — it is neither deduplicated by message nor
tagged by target outside the probe/build/info paths. -/
theorem C7_counterexample :
    (RunFanOut false false healthyMemberInput
        [("member1", Except.ok ⟨Except.error "oops", Except.ok (), Except.ok (), Except.ok []⟩),
         ("member2", Except.ok ⟨Except.error "oops", Except.ok (), Except.ok (), Except.ok []⟩)]).map
        (fun st => st.errs)
      = Except.ok [RunError.plain "oops", RunError.plain "oops"]
    ∧ ¬ ([errMsg (RunError.plain "oops"), errMsg (RunError.plain "oops")] : List String).Nodup
    ∧ isTagged (RunError.plain "oops") = false := by
  refine ⟨rfl, by decide, rfl⟩

theorem dedupInsert_nodup (acc : List String) (e : String) (h : acc.Nodup) :
    (dedupInsert acc e).Nodup := by
  unfold dedupInsert
  by_cases hm : e ∈ acc
  · simpa [hm] using h
  · simp [hm, List.nodup_append, h]

theorem printerErrsFold_nodup_aux (msgs : List String) :
    ∀ acc : List String, acc.Nodup → (msgs.foldl dedupInsert acc).Nodup := by
  induction msgs with
  | nil => intro acc h; exact h
  | cons m rest ih =>
    intro acc h
    exact ih (dedupInsert acc m) (dedupInsert_nodup acc m h)

theorem getObjInfo_append_only (w : Bool) (name : String) (icp : Bool)
    (inp : ClusterQueryInput) (st : FanOutState) :
    ∃ suffix, (getObjInfo w name icp inp st).errs = st.errs ++ suffix
      ∧ suffix.length ≤ 1 := by
  rcases inp with ⟨rc, pr, br, ir⟩
  cases rc <;> cases pr <;> cases br <;> cases ir <;> cases icp <;> cases w <;>
    simp [getObjInfo]

/-- C7 amended: only printer-construction errors in `printObjs` are
deduplicated by message (their accumulated list never holds a repeated
message); every per-target accumulation is append-only, preserving
insertion order; probe, build and info failures embed the originating
target's name in the message, while REST-client construction failures are
appended untagged and can repeat. -/
theorem C7_amended (msgs : List String) (name e : String) (w icp : Bool)
    (inp : ClusterQueryInput) (st : FanOutState) :
    (printerErrsFold msgs).Nodup
    ∧ (∃ suffix, (getObjInfo w name icp inp st).errs = st.errs ++ suffix
        ∧ suffix.length ≤ 1)
    ∧ errMsg (RunError.taggedMsg name e) = "cluster(" ++ name ++ "): " ++ e
    ∧ errMsg (RunError.inaccessible name)
      = "cluster(" ++ name ++ ") is inaccessible, please check authorization or network"
    ∧ isTagged (RunError.plain e) = false := by
  exact ⟨printerErrsFold_nodup_aux msgs [] List.nodup_nil,
    getObjInfo_append_only w name icp inp st, rfl, rfl, rfl⟩

theorem foldl_and_all (p : Obj → Bool) (objs : List Obj) :
    ∀ b : Bool, objs.foldl (fun acc o => acc && p o) b = (b && objs.all p) := by
  induction objs with
  | nil => intro b; simp
  | cons o rest ih =>
    intro b
    simp [List.foldl, List.all_cons, ih (b && p o), Bool.and_assoc]

theorem allResourcesNamespacedOf_eq (aN : Bool) (objs : List Obj) :
    allResourcesNamespacedOf aN objs
      = (!aN && objs.all (fun o => o.info.namespaced)) :=
  foldl_and_all (fun o => o.info.namespaced) objs (!aN)

/-- C8 counterexample: with the all-namespaces flag on, zero collected
records (so every collected record's type is vacuously namespace-scoped),
zero bytes written, zero errors and not-found suppression off, the code
emits the generic no-resources message, not the per-namespace message the
claim selects for "all requested types namespace-scoped". -/
theorem C8_counterexample :
    (([] : List Obj).all (fun o => o.info.namespaced) = true)
    ∧ printIfNotFindResource 0 false [] true ["member1"]
        (allResourcesNamespacedOf true []) "default"
      = some Diagnostic.noResources
    ∧ Diagnostic.noResources ≠ Diagnostic.noResourcesInNamespace "default" := by
  refine ⟨rfl, rfl, by decide⟩

/-- C8 amended: at end of a list-mode render with zero bytes written, zero
accumulated errors and ignore-not-found off, exactly one informational
diagnostic is emitted: the no-member-clusters message when the scope
excludes the control plane and no member targets were resolved, the
per-namespace message when the all-namespaces flag is off and every
collected record's type is namespace-scoped, and the generic no-resources
message otherwise; the diagnostic is not added to the error set, and the
aggregate error the run returns on an empty error set is nil. -/
theorem C8_amended (cks aN : Bool) (targets : List String) (objs : List Obj)
    (ns : String) :
    printIfNotFindResource 0 false [] cks targets
        (allResourcesNamespacedOf aN objs) ns
      = some (if !cks && targets.length == 0 then Diagnostic.noMemberClusters
          else if !aN && objs.all (fun o => o.info.namespaced) then
            Diagnostic.noResourcesInNamespace ns
          else Diagnostic.noResources)
    ∧ runAggregate [] = none := by
  refine ⟨?_, rfl⟩
  by_cases h1 : (!cks && targets.length == 0) = true
  · simp [printIfNotFindResource, h1]
  · simp only [Bool.not_eq_true] at h1
    by_cases h2 : (!aN && objs.all (fun o => o.info.namespaced)) = true
    · simp [printIfNotFindResource, allResourcesNamespacedOf_eq, h1, h2]
    · simp only [Bool.not_eq_true] at h2
      simp [printIfNotFindResource, allResourcesNamespacedOf_eq, h1, h2]

end KarmadaGet
